import Mathlib

/-!
Shallow embedding of the offline POS transaction engine.

The definitions below are translated from the repository source:
* `createTransaction`, `getTransactionById`, `getTransactionItems`,
  `cancelTransaction`, `refundTransaction`, `generateTransactionCode`
  from the transaction handler file (src/unnamed/part_005);
* `updateProductStock` from the product handler (src/server/src/db/schema.ts
  bundle, lines 872-905);
* `getSettingByKey`, `initializeDefaultSettings` from the settings handler
  (src/unnamed/part_005, lines 469-540).

Modelling conventions:
* The database is a `Store` record of lists of rows; `db.select().where(eq(id)).limit(1)`
  becomes `List.find?` (first match) and `db.update().where(eq(id))` maps every
  matching row, exactly as SQL does.
* Monetary values are stored in `numeric(10, 2)` columns — base-10 fixed point
  with two fraction digits — and converted with `parseFloat`/`toString` at the
  boundary.  They are modelled as an exact integer count of hundredths
  (`ℤ`, e.g. `19.99` is `1999`); every arithmetic operation the handlers
  perform (integer-scaling, addition, subtraction, `Math.max`) is closed over
  this representation, and the string round-trips are identities.
* Timestamps are milliseconds since the Unix epoch (`Nat`); the server is
  assumed to run with a UTC local timezone, so the source's
  `new Date(getFullYear(), getMonth(), getDate())` is flooring to the UTC day,
  and `toISOString().slice(0,10)` is the Gregorian date of that day
  (implemented below as `civilFromDays`).
* JavaScript exceptions become `Except TxError`; a thrown error before any
  `insert`/`update` executes leaves the store unchanged, which `step` makes
  explicit.
* Structure fields never read by the embedded operations (descriptions,
  category references, audit timestamps on products, ...) are omitted.
-/

namespace POS

inductive TxStatus
  | completed
  | cancelled
  | refunded
deriving DecidableEq, Repr

inductive PaymentMethod
  | cash
  | card
  | mobile
deriving DecidableEq, Repr

structure Product where
  id : Nat
  name : String
  selling_price : ℤ
  stock_quantity : ℤ
deriving DecidableEq, Repr

structure Transaction where
  id : Nat
  transaction_code : String
  user_id : Nat
  subtotal : ℤ
  discount_amount : ℤ
  tax_amount : ℤ
  total_amount : ℤ
  payment_method : PaymentMethod
  status : TxStatus
  created_at : Nat
deriving DecidableEq, Repr

structure TransactionItem where
  transaction_id : Nat
  product_id : Nat
  quantity : Nat
  unit_price : ℤ
  discount_amount : ℤ
  total_price : ℤ
deriving DecidableEq, Repr

structure Setting where
  key : String
  value : String
deriving DecidableEq, Repr

structure Store where
  products : List Product
  transactions : List Transaction
  txItems : List TransactionItem
  settings : List Setting
  nextTxId : Nat
deriving DecidableEq, Repr

/-- One element of `input.items` in `createTransactionInputSchema`
(zod: `quantity` a positive integer, `discount_amount` non-negative). -/
structure CartItem where
  product_id : Nat
  quantity : Nat
  discount_amount : ℤ
deriving DecidableEq, Repr

structure CreateTransactionInput where
  user_id : Nat
  items : List CartItem
  transaction_discount : ℤ
  payment_method : PaymentMethod
deriving DecidableEq, Repr

/-- The distinguishable thrown errors of the handlers. -/
inductive TxError
  | productNotFound (id : Nat)
  | insufficientStock (name : String)
  | transactionNotFound (id : Nat)
  | cannotCancel (status : TxStatus)
  | cannotRefund (status : TxStatus)
  | productNotFoundSimple
  | internalError
deriving DecidableEq, Repr

deriving instance DecidableEq for Except

/-! ### Row lookup and update helpers -/

def findProduct (ps : List Product) (pid : Nat) : Option Product :=
  ps.find? (fun p => p.id == pid)

def stockOf (ps : List Product) (pid : Nat) : Option ℤ :=
  (findProduct ps pid).map (·.stock_quantity)

def priceOf (ps : List Product) (pid : Nat) : Option ℤ :=
  (findProduct ps pid).map (·.selling_price)

/-- `db.update(productsTable).set({stock_quantity: v}).where(eq(id, pid))`. -/
def setStockRows (ps : List Product) (pid : Nat) (v : ℤ) : List Product :=
  ps.map (fun q => if q.id == pid then { q with stock_quantity := v } else q)

/-! ### Settings handlers (part_005 lines 469-540) -/

def getSettingByKey (s : Store) (key : String) : Option Setting :=
  s.settings.find? (fun x => x.key == key)

def defaultSettings : List Setting :=
  [⟨"store_name", "My Store"⟩,
   ⟨"tax_rate", "0.10"⟩,
   ⟨"currency", "USD"⟩,
   ⟨"receipt_header", "Thank you for your purchase!"⟩,
   ⟨"receipt_footer", "Visit us again!"⟩,
   ⟨"auto_print_receipt", "true"⟩,
   ⟨"low_stock_alert", "true"⟩]

/-- For each default key, insert it only if no setting with that key exists yet. -/
def initializeDefaultSettings (s : Store) : Store :=
  { s with
    settings := defaultSettings.foldl
      (fun acc d => if (acc.find? (fun x => x.key == d.key)).isSome then acc else acc ++ [d])
      s.settings }

/-! ### Transaction code generator (part_005 lines 361-385) -/

def msPerDay : Nat := 86400000

/-- `new Date(now.getFullYear(), now.getMonth(), now.getDate())` with a UTC
local timezone: the most recent UTC midnight. -/
def startOfDay (now : Nat) : Nat := now / msPerDay * msPerDay

/-- Gregorian calendar date (year, month, day) for a count of days since
1970-01-01, mirroring what `Date.toISOString` prints. -/
def civilFromDays (days : Nat) : Nat × Nat × Nat :=
  let z := days + 719468
  let era := z / 146097
  let doe := z % 146097
  let yoe := (doe - doe / 1460 + doe / 36524 - doe / 146096) / 365
  let y := yoe + era * 400
  let doy := doe - (365 * yoe + yoe / 4 - yoe / 100)
  let mp := (5 * doy + 2) / 153
  let d := doy - (153 * mp + 2) / 5 + 1
  let m := if mp < 10 then mp + 3 else mp - 9
  (if m ≤ 2 then y + 1 else y, m, d)

/-- `n.toString().padStart(w, '0')`. -/
def pad (w : Nat) (n : Nat) : String :=
  let s := toString n
  if s.length < w then String.mk (List.replicate (w - s.length) '0') ++ s else s

/-- The first ten characters of `toISOString` with the dashes removed:
the UTC date as `YYYYMMDD`. -/
def dateStr (now : Nat) : String :=
  let c := civilFromDays (now / msPerDay)
  pad 4 c.1 ++ pad 2 c.2.1 ++ pad 2 c.2.2

/-- The `where(and(gte(created_at, startOfDay), lte(created_at, endOfDay)))`
count: note both bounds are inclusive (`gte` and `lte`). -/
def todayCount (s : Store) (now : Nat) : Nat :=
  (s.transactions.filter
    (fun t => decide (startOfDay now ≤ t.created_at) &&
              decide (t.created_at ≤ startOfDay now + msPerDay))).length

def generateTransactionCode (s : Store) (now : Nat) : String :=
  "TRX-" ++ dateStr now ++ "-" ++ pad 3 (todayCount s now + 1)

/-- Modelled from the spec (section 4.3), for comparison with
`generateTransactionCode` only: the spec counts transactions in the half-open
interval `[start_of_day, start_of_day + 1 day)`, i.e. a strict upper bound. -/
def todayCountSpec (s : Store) (now : Nat) : Nat :=
  (s.transactions.filter
    (fun t => decide (startOfDay now ≤ t.created_at) &&
              decide (t.created_at < startOfDay now + msPerDay))).length

/-- Modelled from the spec (section 4.3): the code format with the half-open
day interval count. -/
def generateTransactionCodeSpec (s : Store) (now : Nat) : String :=
  "TRX-" ++ dateStr now ++ "-" ++ pad 3 (todayCountSpec s now + 1)

/-! ### createTransaction (part_005 lines 6-103) -/

/-- The first loop of `createTransaction` (lines 16-35): validate every item
and accumulate `subtotal` and `totalDiscountAmount`.  `subtotal` starts at `0`
and `totalDiscountAmount` starts at `input.transaction_discount` (line 13). -/
def validateItems (ps : List Product) :
    List CartItem → ℤ → ℤ → Except TxError (ℤ × ℤ)
  | [], subtotal, totalDisc => .ok (subtotal, totalDisc)
  | item :: rest, subtotal, totalDisc =>
    match findProduct ps item.product_id with
    | none => .error (.productNotFound item.product_id)
    | some p =>
      if p.stock_quantity < (item.quantity : ℤ) then
        .error (.insufficientStock p.name)
      else
        validateItems ps rest
          (subtotal + (p.selling_price * (item.quantity : ℤ) - item.discount_amount))
          (totalDisc + item.discount_amount)

/-- The second loop of `createTransaction` (lines 59-89): re-fetch the product,
insert the item row, and write back `stock_quantity - quantity` computed from
the freshly fetched row.  The `.error .internalError` branch corresponds to the
`product[0]` access throwing when the product vanished; it is unreachable after
a successful validation pass. -/
def processItems (txId : Nat) :
    List Product → List TransactionItem → List CartItem →
    Except TxError (List Product × List TransactionItem)
  | ps, acc, [] => .ok (ps, acc)
  | ps, acc, item :: rest =>
    match findProduct ps item.product_id with
    | none => .error .internalError
    | some p =>
      let newItem : TransactionItem :=
        { transaction_id := txId
          product_id := item.product_id
          quantity := item.quantity
          unit_price := p.selling_price
          discount_amount := item.discount_amount
          total_price := p.selling_price * (item.quantity : ℤ) - item.discount_amount }
      processItems txId
        (setStockRows ps item.product_id (p.stock_quantity - (item.quantity : ℤ)))
        (acc ++ [newItem]) rest

/-- The transaction row built at lines 42-54 of the source: the tax amount is
the literal `0` ("assuming 0% for now"), `total_amount` is
`subtotal - input.transaction_discount + taxAmount`, the status is
`'completed'`, and the id is the next serial value. -/
def mkTransaction (s : Store) (input : CreateTransactionInput) (now : Nat)
    (subtotal totalDisc : ℤ) : Transaction :=
  { id := s.nextTxId
    transaction_code := generateTransactionCode s now
    user_id := input.user_id
    subtotal := subtotal
    discount_amount := totalDisc
    tax_amount := 0
    total_amount := subtotal - input.transaction_discount + 0
    payment_method := input.payment_method
    status := .completed
    created_at := now }

def createTransaction (s : Store) (input : CreateTransactionInput) (now : Nat) :
    Except TxError (Store × Transaction) :=
  match validateItems s.products input.items 0 input.transaction_discount with
  | .error e => .error e
  | .ok (subtotal, totalDisc) =>
    match processItems s.nextTxId s.products s.txItems input.items with
    | .error e => .error e
    | .ok (ps, items) =>
      .ok ({ s with
              products := ps
              transactions := s.transactions ++ [mkTransaction s input now subtotal totalDisc]
              txItems := items
              nextTxId := s.nextTxId + 1 }, mkTransaction s input now subtotal totalDisc)

/-! ### Reads (part_005 lines 205-249) -/

def getTransactionById (s : Store) (id : Nat) : Option Transaction :=
  s.transactions.find? (fun t => t.id == id)

def getTransactionItems (s : Store) (id : Nat) : List TransactionItem :=
  s.txItems.filter (fun it => it.transaction_id == id)

def txStatusOf (s : Store) (id : Nat) : Option TxStatus :=
  (getTransactionById s id).map (·.status)

/-! ### cancel / refund (part_005 lines 251-359) -/

/-- The stock-restoration loop shared by `cancelTransaction` and
`refundTransaction`: for each item, fetch the product; if it still exists,
write back `stock_quantity + quantity`; otherwise silently skip it. -/
def restoreStock (ps : List Product) : List TransactionItem → List Product
  | [] => ps
  | it :: rest =>
    match findProduct ps it.product_id with
    | none => restoreStock ps rest
    | some p =>
      restoreStock (setStockRows ps it.product_id (p.stock_quantity + (it.quantity : ℤ))) rest

def setTxStatus (ts : List Transaction) (id : Nat) (st : TxStatus) : List Transaction :=
  ts.map (fun t => if t.id == id then { t with status := st } else t)

def cancelTransaction (s : Store) (id : Nat) : Except TxError (Store × Transaction) :=
  match getTransactionById s id with
  | none => .error (.transactionNotFound id)
  | some tx =>
    if tx.status ≠ TxStatus.completed then
      .error (.cannotCancel tx.status)
    else
      .ok ({ s with
              products := restoreStock s.products (getTransactionItems s id)
              transactions := setTxStatus s.transactions id .cancelled },
           { tx with status := .cancelled })

def refundTransaction (s : Store) (id : Nat) : Except TxError (Store × Transaction) :=
  match getTransactionById s id with
  | none => .error (.transactionNotFound id)
  | some tx =>
    if tx.status ≠ TxStatus.completed then
      .error (.cannotRefund tx.status)
    else
      .ok ({ s with
              products := restoreStock s.products (getTransactionItems s id)
              transactions := setTxStatus s.transactions id .refunded },
           { tx with status := .refunded })

/-! ### updateProductStock (db/schema.ts bundle, lines 872-905) -/

def updateProductStock (s : Store) (productId : Nat) (quantityChange : ℤ) :
    Except TxError (Store × Product) :=
  match findProduct s.products productId with
  | none => .error .productNotFoundSimple
  | some p =>
    let newStock := max 0 (p.stock_quantity + quantityChange)
    .ok ({ s with products := setStockRows s.products productId newStock },
         { p with stock_quantity := newStock })

/-! ### The engine's operations as state transitions

Every handler throws before its first write on each failure path, so a failed
operation leaves the database unchanged. -/

inductive Op
  | create (input : CreateTransactionInput) (now : Nat)
  | cancel (id : Nat)
  | refund (id : Nat)
  | adjust (pid : Nat) (delta : ℤ)
deriving DecidableEq, Repr

def step (s : Store) : Op → Store
  | .create input now =>
    match createTransaction s input now with
    | .ok (s', _) => s'
    | .error _ => s
  | .cancel id =>
    match cancelTransaction s id with
    | .ok (s', _) => s'
    | .error _ => s
  | .refund id =>
    match refundTransaction s id with
    | .ok (s', _) => s'
    | .error _ => s
  | .adjust pid delta =>
    match updateProductStock s pid delta with
    | .ok (s', _) => s'
    | .error _ => s

/-! ### Derived quantities used to state the claims -/

/-- Total quantity, over a list of line items, referencing product `pid`. -/
def totalQty (items : List TransactionItem) (pid : Nat) : ℤ :=
  ((items.filter (fun it => it.product_id == pid)).map (fun it => (it.quantity : ℤ))).sum

/-- Selling price of the first product row with id `pid`, `0` when absent. -/
def priceD (ps : List Product) (pid : Nat) : ℤ :=
  ((findProduct ps pid).map (·.selling_price)).getD 0

/-- The line-item row that the second `createTransaction` loop inserts for a
cart item, with the unit price snapshot taken from `ps`. -/
def mkTxItem (ps : List Product) (txId : Nat) (it : CartItem) : TransactionItem :=
  { transaction_id := txId
    product_id := it.product_id
    quantity := it.quantity
    unit_price := priceD ps it.product_id
    discount_amount := it.discount_amount
    total_price := priceD ps it.product_id * (it.quantity : ℤ) - it.discount_amount }

def mkItems (ps : List Product) (txId : Nat) (cart : List CartItem) : List TransactionItem :=
  cart.map (mkTxItem ps txId)

/-- The subtotal accumulated by the validation loop. -/
def lineSum (ps : List Product) (cart : List CartItem) : ℤ :=
  (cart.map (fun it => priceD ps it.product_id * (it.quantity : ℤ) - it.discount_amount)).sum

/-- The sum of the per-line discounts. -/
def discSum (cart : List CartItem) : ℤ :=
  (cart.map (·.discount_amount)).sum

/-! ## Concrete fixtures used by counterexamples and witnesses -/

def c1store : Store := ⟨[⟨1, "Widget", 1999, 5⟩], [], [], [], 1⟩

def c1input : CreateTransactionInput := ⟨1, [⟨1, 3, 0⟩, ⟨1, 3, 0⟩], 0, .cash⟩

def c2store : Store := ⟨[⟨1, "Widget", 1999, 10⟩], [], [], [], 1⟩

def c2input : CreateTransactionInput := ⟨1, [⟨1, 2, 100⟩], 200, .cash⟩

def c2tx : Transaction :=
  ⟨1, "TRX-19700101-001", 1, 3898, 300, 0, 3698, .cash, .completed, 0⟩

def c2resStore : Store :=
  ⟨[⟨1, "Widget", 1999, 8⟩], [c2tx], [⟨1, 1, 2, 1999, 100, 3898⟩], [], 2⟩

def c3store : Store := ⟨[⟨1, "Gizmo", 500, 10⟩], [], [], [], 1⟩

def c3input : CreateTransactionInput := ⟨1, [⟨1, 1, 1000⟩], 0, .cash⟩

def c3tx : Transaction :=
  ⟨1, "TRX-19700101-001", 1, -500, 1000, 0, -500, .cash, .completed, 0⟩

def c3resStore : Store :=
  ⟨[⟨1, "Gizmo", 500, 9⟩], [c3tx], [⟨1, 1, 1, 500, 1000, -500⟩], [], 2⟩

def c4store : Store := initializeDefaultSettings ⟨[⟨1, "Thing", 1000, 5⟩], [], [], [], 1⟩

def c4input : CreateTransactionInput := ⟨1, [⟨1, 1, 0⟩], 0, .card⟩

def c4tx : Transaction :=
  ⟨1, "TRX-19700101-001", 1, 1000, 0, 0, 1000, .card, .completed, 0⟩

def c4resStore : Store :=
  ⟨[⟨1, "Thing", 1000, 4⟩], [c4tx], [⟨1, 1, 1, 1000, 0, 1000⟩], defaultSettings, 2⟩

def c5tx : Transaction := ⟨7, "TRX-A", 1, 600, 0, 0, 600, .cash, .completed, 0⟩

def c5store : Store := ⟨[⟨1, "Alpha", 200, 10⟩], [c5tx], [⟨7, 1, 3, 200, 0, 600⟩], [], 8⟩

def c6tx : Transaction := ⟨3, "TRX-B", 1, 0, 0, 0, 0, .cash, .completed, 0⟩

def c6store : Store := ⟨[], [c6tx], [], [], 4⟩

def c7store : Store := ⟨[⟨1, "Alpha", 200, 0⟩], [], [], [], 1⟩

def c7mixedInput : CreateTransactionInput := ⟨1, [⟨1, 1, 0⟩, ⟨2, 1, 0⟩], 0, .cash⟩

def c7missingInput : CreateTransactionInput := ⟨1, [⟨2, 1, 0⟩], 0, .cash⟩

def c8store : Store := ⟨[], [⟨1, "TRX-X", 1, 0, 0, 0, 0, .cash, .completed, 86400000⟩], [], [], 2⟩

def c8wstore : Store := ⟨[⟨1, "P", 100, 10⟩], [], [], [], 1⟩

def c8winput : CreateTransactionInput := ⟨1, [⟨1, 1, 0⟩], 0, .cash⟩

def c8wtx : Transaction :=
  ⟨1, "TRX-19700101-001", 1, 100, 0, 0, 100, .cash, .completed, 0⟩

def c8wresStore : Store :=
  ⟨[⟨1, "P", 100, 9⟩], [c8wtx], [⟨1, 1, 1, 100, 0, 100⟩], [], 2⟩

def c9prod : Product := ⟨1, "Gadget", 400, 3⟩

def c9store : Store := ⟨[c9prod], [], [], [], 1⟩

def c9input : CreateTransactionInput := ⟨1, [⟨1, 5, 0⟩], 0, .cash⟩

def c10tx : Transaction := ⟨7, "TRX-C", 1, 1400, 0, 0, 1400, .cash, .completed, 0⟩

def c10badItem : TransactionItem := ⟨7, 99, 4, 200, 0, 800⟩

def c10store : Store :=
  ⟨[⟨1, "Alpha", 200, 10⟩], [c10tx], [⟨7, 1, 3, 200, 0, 600⟩, c10badItem], [], 8⟩

/-! ## Helper lemmas -/

theorem find?_map_pred {α : Type} (f : α → α) (p : α → Bool)
    (hp : ∀ a, p (f a) = p a) (l : List α) :
    (l.map f).find? p = (l.find? p).map f := by
  rw [List.find?_map]
  have hfun : p ∘ f = p := funext hp
  rw [hfun]

theorem findProduct_setStockRows (ps : List Product) (pid : Nat) (v : ℤ) (pid' : Nat) :
    findProduct (setStockRows ps pid v) pid' =
      (findProduct ps pid').map
        (fun q => if q.id == pid then { q with stock_quantity := v } else q) := by
  unfold findProduct setStockRows
  apply find?_map_pred
  intro a
  by_cases h : (a.id == pid) = true
  · simp [h]
  · simp [h]

theorem stockOf_setStockRows_self (ps : List Product) (pid : Nat) (v : ℤ) :
    stockOf (setStockRows ps pid v) pid = (stockOf ps pid).map (fun _ => v) := by
  unfold stockOf
  rw [findProduct_setStockRows]
  cases hf : findProduct ps pid with
  | none => rfl
  | some p =>
    have hpid : p.id = pid := by
      unfold findProduct at hf
      have hp := List.find?_some hf
      simpa using hp
    simp [hpid]

theorem stockOf_setStockRows_ne (ps : List Product) (pid : Nat) (v : ℤ) (pid' : Nat)
    (h : pid' ≠ pid) :
    stockOf (setStockRows ps pid v) pid' = stockOf ps pid' := by
  unfold stockOf
  rw [findProduct_setStockRows]
  cases hf : findProduct ps pid' with
  | none => rfl
  | some p =>
    have hpid : p.id = pid' := by
      unfold findProduct at hf
      have hp := List.find?_some hf
      simpa using hp
    have hne : p.id ≠ pid := by
      rw [hpid]
      exact h
    simp [hne]

theorem priceD_setStockRows (ps : List Product) (pid : Nat) (v : ℤ) (pid' : Nat) :
    priceD (setStockRows ps pid v) pid' = priceD ps pid' := by
  unfold priceD
  rw [findProduct_setStockRows]
  cases hf : findProduct ps pid' with
  | none => rfl
  | some p =>
    by_cases hc : p.id = pid
    · simp [hc]
    · simp [hc]

theorem isSome_findProduct_setStockRows (ps : List Product) (pid : Nat) (v : ℤ) (pid' : Nat) :
    (findProduct (setStockRows ps pid v) pid').isSome = (findProduct ps pid').isSome := by
  rw [findProduct_setStockRows]
  cases findProduct ps pid' <;> rfl

theorem totalQty_cons (it : TransactionItem) (rest : List TransactionItem) (pid : Nat) :
    totalQty (it :: rest) pid =
      (if it.product_id == pid then (it.quantity : ℤ) else 0) + totalQty rest pid := by
  unfold totalQty
  by_cases h : (it.product_id == pid) = true
  · simp [List.filter_cons, h]
  · simp [List.filter_cons, h]

theorem stockOf_restoreStock (items : List TransactionItem) :
    ∀ (ps : List Product) (pid : Nat),
      stockOf (restoreStock ps items) pid =
        (stockOf ps pid).map (· + totalQty items pid) := by
  induction items with
  | nil =>
    intro ps pid
    unfold restoreStock totalQty
    cases stockOf ps pid <;> simp
  | cons it rest ih =>
    intro ps pid
    rw [restoreStock]
    cases hf : findProduct ps it.product_id with
    | none =>
      rw [ih, totalQty_cons]
      by_cases h : (it.product_id == pid) = true
      · have hpid : it.product_id = pid := by simpa using h
        have hnone : stockOf ps pid = none := by
          unfold stockOf
          rw [← hpid, hf]
          rfl
        rw [hnone]
        rfl
      · simp [h]
    | some p =>
      rw [ih, totalQty_cons]
      by_cases h : (it.product_id == pid) = true
      · have hpid : it.product_id = pid := by simpa using h
        subst hpid
        rw [stockOf_setStockRows_self]
        have hsome : stockOf ps it.product_id = some p.stock_quantity := by
          unfold stockOf
          rw [hf]
          rfl
        rw [hsome]
        simp [h]
        ring
      · have hne : pid ≠ it.product_id := by
          intro hc
          rw [hc] at h
          simp at h
        rw [stockOf_setStockRows_ne _ _ _ _ hne]
        simp [h]

theorem find?_setTxStatus (ts : List Transaction) (id : Nat) (st : TxStatus) (id' : Nat) :
    (setTxStatus ts id st).find? (fun t => t.id == id') =
      (ts.find? (fun t => t.id == id')).map
        (fun t => if t.id == id then { t with status := st } else t) := by
  unfold setTxStatus
  apply find?_map_pred
  intro a
  by_cases h : (a.id == id) = true
  · simp [h]
  · simp [h]

theorem validateItems_ok :
    ∀ (cart : List CartItem) (ps : List Product) (sub0 disc0 sub disc : ℤ),
      validateItems ps cart sub0 disc0 = .ok (sub, disc) →
      sub = sub0 + lineSum ps cart ∧ disc = disc0 + discSum cart ∧
      ∀ it ∈ cart, ∃ p, findProduct ps it.product_id = some p ∧
        ¬ p.stock_quantity < (it.quantity : ℤ) := by
  intro cart
  induction cart with
  | nil =>
    intro ps sub0 disc0 sub disc h
    rw [validateItems] at h
    simp only [Except.ok.injEq, Prod.mk.injEq] at h
    obtain ⟨h1, h2⟩ := h
    refine ⟨?_, ?_, by simp⟩
    · rw [← h1]
      simp [lineSum]
    · rw [← h2]
      simp [discSum]
  | cons it rest ih =>
    intro ps sub0 disc0 sub disc h
    rw [validateItems] at h
    split at h
    next hf => cases h
    next p hf =>
      split at h
      next hst => cases h
      next hst =>
        obtain ⟨h1, h2, h3⟩ := ih ps _ _ sub disc h
        refine ⟨?_, ?_, ?_⟩
        · rw [h1]
          simp only [lineSum, List.map_cons, List.sum_cons]
          have hpd : priceD ps it.product_id = p.selling_price := by
            unfold priceD
            rw [hf]
            rfl
          rw [hpd]
          ring
        · rw [h2]
          simp only [discSum, List.map_cons, List.sum_cons]
          ring
        · intro x hx
          rcases List.mem_cons.mp hx with hx | hx
          · exact hx ▸ ⟨p, hf, hst⟩
          · exact h3 x hx

theorem mkTxItem_setStockRows (ps : List Product) (pid : Nat) (v : ℤ) (txId : Nat)
    (it : CartItem) :
    mkTxItem (setStockRows ps pid v) txId it = mkTxItem ps txId it := by
  unfold mkTxItem
  rw [priceD_setStockRows]

theorem mkItems_setStockRows (ps : List Product) (pid : Nat) (v : ℤ) (txId : Nat)
    (cart : List CartItem) :
    mkItems (setStockRows ps pid v) txId cart = mkItems ps txId cart := by
  unfold mkItems
  induction cart with
  | nil => rfl
  | cons x xs ih =>
    simp only [List.map_cons]
    rw [mkTxItem_setStockRows, ih]

theorem processItems_ok :
    ∀ (cart : List CartItem) (ps : List Product) (acc : List TransactionItem) (txId : Nat),
      (∀ it ∈ cart, (findProduct ps it.product_id).isSome) →
      ∃ ps2, processItems txId ps acc cart = .ok (ps2, acc ++ mkItems ps txId cart) := by
  intro cart
  induction cart with
  | nil =>
    intro ps acc txId _
    refine ⟨ps, ?_⟩
    rw [processItems]
    simp [mkItems]
  | cons it rest ih =>
    intro ps acc txId hall
    have hit := hall it (List.mem_cons_self it rest)
    cases hf : findProduct ps it.product_id with
    | none =>
      rw [hf] at hit
      cases hit
    | some p =>
      have hrest : ∀ x ∈ rest,
          (findProduct (setStockRows ps it.product_id
            (p.stock_quantity - (it.quantity : ℤ))) x.product_id).isSome := by
        intro x hx
        rw [isSome_findProduct_setStockRows]
        exact hall x (List.mem_cons_of_mem it hx)
      obtain ⟨ps2, hps2⟩ := ih _ _ txId hrest
      refine ⟨ps2, ?_⟩
      have key : processItems txId ps acc (it :: rest) =
          processItems txId
            (setStockRows ps it.product_id (p.stock_quantity - (it.quantity : ℤ)))
            (acc ++ [{ transaction_id := txId
                       product_id := it.product_id
                       quantity := it.quantity
                       unit_price := p.selling_price
                       discount_amount := it.discount_amount
                       total_price := p.selling_price * (it.quantity : ℤ)
                         - it.discount_amount }]) rest := by
        rw [processItems, hf]
      rw [key, hps2, mkItems_setStockRows]
      have hpd : priceD ps it.product_id = p.selling_price := by
        unfold priceD
        rw [hf]
        rfl
      simp [mkItems, mkTxItem, hpd]

theorem createTransaction_ok {s : Store} {input : CreateTransactionInput} {now : Nat}
    {s' : Store} {tx : Transaction}
    (h : createTransaction s input now = .ok (s', tx)) :
    ∃ sub disc ps2,
      validateItems s.products input.items 0 input.transaction_discount = .ok (sub, disc) ∧
      tx = mkTransaction s input now sub disc ∧
      s' = { s with
              products := ps2
              transactions := s.transactions ++ [mkTransaction s input now sub disc]
              txItems := s.txItems ++ mkItems s.products s.nextTxId input.items
              nextTxId := s.nextTxId + 1 } := by
  unfold createTransaction at h
  cases hv : validateItems s.products input.items 0 input.transaction_discount with
  | error e =>
    rw [hv] at h
    cases h
  | ok pr =>
    obtain ⟨sub, disc⟩ := pr
    rw [hv] at h
    have hall : ∀ it ∈ input.items, (findProduct s.products it.product_id).isSome := by
      obtain ⟨-, -, h3⟩ := validateItems_ok _ _ _ _ _ _ hv
      intro it hit
      obtain ⟨p, hp, -⟩ := h3 it hit
      rw [hp]
      rfl
    obtain ⟨ps2, hps2⟩ := processItems_ok input.items s.products s.txItems s.nextTxId hall
    rw [hps2] at h
    simp only [Except.ok.injEq, Prod.mk.injEq] at h
    obtain ⟨hs, ht⟩ := h
    exact ⟨sub, disc, ps2, rfl, ht.symm, hs.symm⟩

theorem cancelTransaction_of_none {s : Store} {id : Nat}
    (hfind : getTransactionById s id = none) :
    cancelTransaction s id = .error (.transactionNotFound id) := by
  simp [cancelTransaction, hfind]

theorem refundTransaction_of_none {s : Store} {id : Nat}
    (hfind : getTransactionById s id = none) :
    refundTransaction s id = .error (.transactionNotFound id) := by
  simp [refundTransaction, hfind]

theorem cancelTransaction_of_not_completed {s : Store} {id : Nat} {tx : Transaction}
    (hfind : getTransactionById s id = some tx) (hst : tx.status ≠ .completed) :
    cancelTransaction s id = .error (.cannotCancel tx.status) := by
  simp [cancelTransaction, hfind, hst]

theorem refundTransaction_of_not_completed {s : Store} {id : Nat} {tx : Transaction}
    (hfind : getTransactionById s id = some tx) (hst : tx.status ≠ .completed) :
    refundTransaction s id = .error (.cannotRefund tx.status) := by
  simp [refundTransaction, hfind, hst]

theorem cancelTransaction_of_completed {s : Store} {id : Nat} {tx : Transaction}
    (hfind : getTransactionById s id = some tx) (hst : tx.status = .completed) :
    cancelTransaction s id =
      .ok ({ s with
              products := restoreStock s.products (getTransactionItems s id)
              transactions := setTxStatus s.transactions id .cancelled },
           { tx with status := .cancelled }) := by
  simp [cancelTransaction, hfind, hst]

theorem refundTransaction_of_completed {s : Store} {id : Nat} {tx : Transaction}
    (hfind : getTransactionById s id = some tx) (hst : tx.status = .completed) :
    refundTransaction s id =
      .ok ({ s with
              products := restoreStock s.products (getTransactionItems s id)
              transactions := setTxStatus s.transactions id .refunded },
           { tx with status := .refunded }) := by
  simp [refundTransaction, hfind, hst]

theorem find?_setTxStatus_self {ts : List Transaction} {id : Nat} {tx : Transaction}
    (hfind : ts.find? (fun t => t.id == id) = some tx) (st : TxStatus) :
    (setTxStatus ts id st).find? (fun t => t.id == id) = some { tx with status := st } := by
  rw [find?_setTxStatus, hfind]
  have hid : tx.id = id := by simpa using List.find?_some hfind
  simp [hid]

theorem txStatusOf_set (s : Store) (id : Nat) (tx : Transaction) (ps : List Product)
    (st : TxStatus) (hfind : getTransactionById s id = some tx) :
    txStatusOf { s with products := ps
                        transactions := setTxStatus s.transactions id st } id = some st := by
  unfold txStatusOf getTransactionById
  rw [find?_setTxStatus_self hfind st]
  rfl

theorem validateItems_notfound_prefix :
    ∀ (pre : List CartItem) (ps : List Product) (sub0 disc0 : ℤ)
      (bad : CartItem) (rest : List CartItem),
      (∀ it ∈ pre, ∃ p, findProduct ps it.product_id = some p ∧
        ¬ p.stock_quantity < (it.quantity : ℤ)) →
      findProduct ps bad.product_id = none →
      validateItems ps (pre ++ bad :: rest) sub0 disc0 =
        .error (.productNotFound bad.product_id) := by
  intro pre
  induction pre with
  | nil =>
    intro ps sub0 disc0 bad rest _ hbad
    rw [List.nil_append]
    simp [validateItems, hbad]
  | cons it pre ih =>
    intro ps sub0 disc0 bad rest hpre hbad
    obtain ⟨p, hf, hstock⟩ := hpre it (List.mem_cons_self it pre)
    rw [List.cons_append]
    have key : validateItems ps (it :: (pre ++ bad :: rest)) sub0 disc0 =
        validateItems ps (pre ++ bad :: rest)
          (sub0 + (p.selling_price * (it.quantity : ℤ) - it.discount_amount))
          (disc0 + it.discount_amount) := by
      simp only [validateItems, hf]
      rw [if_neg hstock]
    rw [key]
    exact ih ps _ _ bad rest (fun x hx => hpre x (List.mem_cons_of_mem it hx)) hbad

/-! ## Claims -/

/-- Claim C1 (code bug): the spec's invariant "stock quantity is never
negative" is violated by `createTransaction` when the same product appears in
two line items of one cart.  Starting from a store holding product 1 with
stock 5, a cart with two line items of quantity 3 for product 1 passes the
per-item validation (each check sees the un-decremented stock 5), the
transaction is persisted, and the final persisted stock of product 1 is `-1`. -/
theorem C1_duplicate_line_items_drive_stock_negative :
    (createTransaction c1store c1input 0).toOption.map
      (fun r => stockOf r.1.products 1) = some (some (-1)) ∧ (-1 : ℤ) < 0 := by
  exact ⟨by decide, by decide⟩

/-- Claim C2 (confirmed): the persisted `discount_amount` is always the
transaction-level discount plus the sum of the per-line discounts, and the
spec's concrete scenario — one line of quantity 2 at unit price 19.99 with
line discount 1.00, transaction discount 2.00, tax 0 — yields subtotal 38.98,
discount 3.00 and total 36.98 (amounts in hundredths). -/
theorem C2_discount_amount_combined :
    (∀ (s : Store) (input : CreateTransactionInput) (now : Nat)
      (s' : Store) (tx : Transaction),
      createTransaction s input now = .ok (s', tx) →
      tx.discount_amount = input.transaction_discount + discSum input.items) ∧
    (createTransaction c2store c2input 0).toOption.map
      (fun r => (r.2.subtotal, r.2.discount_amount, r.2.total_amount)) =
      some (3898, 300, 3698) := by
  constructor
  · intro s input now s' tx h
    obtain ⟨sub, disc, ps2, hv, ht, -⟩ := createTransaction_ok h
    obtain ⟨-, h2, -⟩ := validateItems_ok _ _ _ _ _ _ hv
    rw [ht]
    exact h2
  · decide

/-- Witness for C2: the general discount law applied at the spec's scenario. -/
theorem C2_discount_amount_combined_witness :
    createTransaction c2store c2input 0 = .ok (c2resStore, c2tx) ∧
    c2tx.discount_amount = c2input.transaction_discount + discSum c2input.items :=
  ⟨by decide,
   C2_discount_amount_combined.1 c2store c2input 0 c2resStore c2tx (by decide)⟩

/-- Claim C3 (corrected): the code does not clamp a line total at zero.  The
persisted `total_price` of every line item is exactly
`unit_price * quantity - discount_amount`, which is negative whenever the line
discount exceeds `unit_price * quantity`, and the persisted subtotal is the sum
of these unclamped line totals (so it too can be negative). -/
theorem C3_line_totals_unclamped :
    ∀ (s : Store) (input : CreateTransactionInput) (now : Nat)
      (s' : Store) (tx : Transaction),
      createTransaction s input now = .ok (s', tx) →
      (∀ it ∈ s.txItems, it.transaction_id ≠ s.nextTxId) →
      (∀ it ∈ getTransactionItems s' tx.id,
        it.total_price = it.unit_price * (it.quantity : ℤ) - it.discount_amount) ∧
      tx.subtotal = ((getTransactionItems s' tx.id).map (·.total_price)).sum := by
  intro s input now s' tx h hfresh
  obtain ⟨sub, disc, ps2, hv, ht, hs⟩ := createTransaction_ok h
  have htxid : tx.id = s.nextTxId := by rw [ht]; rfl
  have hitems : getTransactionItems s' tx.id = mkItems s.products s.nextTxId input.items := by
    rw [hs, htxid]
    unfold getTransactionItems
    show (s.txItems ++ mkItems s.products s.nextTxId input.items).filter _ = _
    rw [List.filter_append]
    have hold : s.txItems.filter (fun it => it.transaction_id == s.nextTxId) = [] := by
      rw [List.filter_eq_nil_iff]
      intro a ha
      simpa using hfresh a ha
    have hnew : (mkItems s.products s.nextTxId input.items).filter
        (fun it => it.transaction_id == s.nextTxId) =
        mkItems s.products s.nextTxId input.items := by
      rw [List.filter_eq_self]
      intro a ha
      obtain ⟨c, -, rfl⟩ := List.mem_map.mp ha
      simp [mkTxItem]
    rw [hold, hnew]
    rfl
  constructor
  · intro it hit
    rw [hitems] at hit
    obtain ⟨c, -, rfl⟩ := List.mem_map.mp hit
    simp [mkTxItem]
  · have hsubeq : tx.subtotal = sub := by rw [ht]; rfl
    obtain ⟨h1, -, -⟩ := validateItems_ok _ _ _ _ _ _ hv
    rw [hitems, hsubeq, h1]
    have : ((mkItems s.products s.nextTxId input.items).map (·.total_price)).sum =
        lineSum s.products input.items := by
      unfold mkItems lineSum
      rw [List.map_map]
      rfl
    rw [this]
    ring

/-- Witness for C3: the unclamped-line-total law at the counterexample input
(the line discount 10.00 exceeds the line amount 5.00). -/
theorem C3_line_totals_unclamped_witness :
    createTransaction c3store c3input 0 = .ok (c3resStore, c3tx) ∧
    c3tx.subtotal = ((getTransactionItems c3resStore c3tx.id).map (·.total_price)).sum :=
  ⟨by decide,
   (C3_line_totals_unclamped c3store c3input 0 c3resStore c3tx (by decide) (by decide)).2⟩

/-- Counterexample for C3: the claim says the persisted line total is
`max(0, unit_price * quantity - line_discount)` and never negative; with unit
price 5.00, quantity 1 and line discount 10.00 the code persists `-5.00`
(here `-500` hundredths), which differs from the claimed clamped value `0`. -/
theorem C3_counterexample :
    (createTransaction c3store c3input 0).toOption.map
      (fun r => (getTransactionItems r.1 r.2.id).map (·.total_price)) =
      some [(-500 : ℤ)] ∧
    ¬ ((-500 : ℤ) = max 0 (500 * 1 - 1000)) := by
  exact ⟨by decide, by decide⟩

/-- Claim C4 (corrected): the code hardcodes the tax amount to `0` — it never
reads the settings store — and the persisted total is
`subtotal - transaction_discount` with no clamping at zero. -/
theorem C4_tax_hardcoded_zero :
    ∀ (s : Store) (input : CreateTransactionInput) (now : Nat)
      (s' : Store) (tx : Transaction),
      createTransaction s input now = .ok (s', tx) →
      tx.tax_amount = 0 ∧ tx.total_amount = tx.subtotal - input.transaction_discount := by
  intro s input now s' tx h
  obtain ⟨sub, disc, ps2, -, ht, -⟩ := createTransaction_ok h
  rw [ht]
  refine ⟨rfl, ?_⟩
  show sub - input.transaction_discount + 0 = sub - input.transaction_discount
  ring

/-- Witness for C4: the tax/total law applied at a store initialised with the
default settings (which contain `tax_rate = "0.10"`). -/
theorem C4_tax_hardcoded_zero_witness :
    createTransaction c4store c4input 0 = .ok (c4resStore, c4tx) ∧
    c4tx.tax_amount = 0 ∧ c4tx.total_amount = c4tx.subtotal - c4input.transaction_discount :=
  ⟨by decide, C4_tax_hardcoded_zero c4store c4input 0 c4resStore c4tx (by decide)⟩

/-- Counterexample for C4: the claim says the persisted tax equals the settings
store's rate (default `"0.10"`) times `max(0, subtotal - transaction_discount)`.
On a store initialised with the default settings, a sale with subtotal 10.00
(1000 hundredths) and no discounts persists `tax_amount = 0`, whereas the
claimed formula gives `0.10 × 10.00 = 1.00` (100 hundredths). -/
theorem C4_counterexample :
    getSettingByKey c4store "tax_rate" = some ⟨"tax_rate", "0.10"⟩ ∧
    (createTransaction c4store c4input 0).toOption.map
      (fun r => (r.2.subtotal, r.2.tax_amount)) = some (1000, 0) ∧
    ¬ ((0 : ℤ) = 10 * max 0 (1000 - c4input.transaction_discount) / 100) := by
  exact ⟨by decide, by decide, by decide⟩

/-- Claim C5 (confirmed): for any transaction id, both `cancelTransaction` and
`refundTransaction` fail with a not-found error when no transaction exists,
fail with the operation-specific invalid-state error ("cannot cancel" versus
"cannot refund", carrying the offending status) when the transaction is not
`completed`, and otherwise restore, for every product, exactly the total
quantity appearing in the transaction's line items, set the status to the
respective terminal value, and return the updated transaction. -/
theorem C5_cancel_refund_behaviour :
    ∀ (s : Store) (id : Nat),
      (getTransactionById s id = none →
        cancelTransaction s id = .error (.transactionNotFound id) ∧
        refundTransaction s id = .error (.transactionNotFound id)) ∧
      (∀ tx, getTransactionById s id = some tx → tx.status ≠ .completed →
        cancelTransaction s id = .error (.cannotCancel tx.status) ∧
        refundTransaction s id = .error (.cannotRefund tx.status)) ∧
      (∀ tx, getTransactionById s id = some tx → tx.status = .completed →
        (∀ it ∈ getTransactionItems s id, (findProduct s.products it.product_id).isSome) →
        cancelTransaction s id =
          .ok ({ s with
                  products := restoreStock s.products (getTransactionItems s id)
                  transactions := setTxStatus s.transactions id .cancelled },
               { tx with status := .cancelled }) ∧
        refundTransaction s id =
          .ok ({ s with
                  products := restoreStock s.products (getTransactionItems s id)
                  transactions := setTxStatus s.transactions id .refunded },
               { tx with status := .refunded }) ∧
        (∀ pid, stockOf (restoreStock s.products (getTransactionItems s id)) pid =
          (stockOf s.products pid).map (· + totalQty (getTransactionItems s id) pid)) ∧
        txStatusOf { s with
                      products := restoreStock s.products (getTransactionItems s id)
                      transactions := setTxStatus s.transactions id .cancelled } id =
          some .cancelled ∧
        txStatusOf { s with
                      products := restoreStock s.products (getTransactionItems s id)
                      transactions := setTxStatus s.transactions id .refunded } id =
          some .refunded) := by
  intro s id
  refine ⟨?_, ?_, ?_⟩
  · intro hnone
    exact ⟨cancelTransaction_of_none hnone, refundTransaction_of_none hnone⟩
  · intro tx hfind hst
    exact ⟨cancelTransaction_of_not_completed hfind hst,
           refundTransaction_of_not_completed hfind hst⟩
  · intro tx hfind hst hall
    refine ⟨cancelTransaction_of_completed hfind hst,
            refundTransaction_of_completed hfind hst, ?_, ?_, ?_⟩
    · intro pid
      exact stockOf_restoreStock _ _ _
    · exact txStatusOf_set s id tx _ .cancelled hfind
    · exact txStatusOf_set s id tx _ .refunded hfind

/-- Witness for C5: the success branch at a concrete completed transaction
whose single line item references an existing product. -/
theorem C5_cancel_refund_behaviour_witness :
    cancelTransaction c5store 7 =
      .ok ({ c5store with
              products := restoreStock c5store.products (getTransactionItems c5store 7)
              transactions := setTxStatus c5store.transactions 7 .cancelled },
           { c5tx with status := .cancelled }) ∧
    refundTransaction c5store 7 =
      .ok ({ c5store with
              products := restoreStock c5store.products (getTransactionItems c5store 7)
              transactions := setTxStatus c5store.transactions 7 .refunded },
           { c5tx with status := .refunded }) ∧
    stockOf (restoreStock c5store.products (getTransactionItems c5store 7)) 1 =
      (stockOf c5store.products 1).map (· + totalQty (getTransactionItems c5store 7) 1) ∧
    txStatusOf { c5store with
                  products := restoreStock c5store.products (getTransactionItems c5store 7)
                  transactions := setTxStatus c5store.transactions 7 .cancelled } 7 =
      some .cancelled := by
  have h := (C5_cancel_refund_behaviour c5store 7).2.2 c5tx (by decide) (by decide) (by decide)
  exact ⟨h.1, h.2.1, h.2.2.1 1, h.2.2.2.1⟩

/-- Claim C10 (confirmed): when a completed transaction has a line item whose
product row no longer exists, `cancelTransaction` and `refundTransaction` both
succeed, silently skip that item (its product id still resolves to no row, so
no increment happens for it), restore every existing product's stock by the
total quantity of the transaction's items for it, and set the terminal
status. -/
theorem C10_missing_product_skipped :
    ∀ (s : Store) (id : Nat) (tx : Transaction) (bad : TransactionItem),
      getTransactionById s id = some tx → tx.status = .completed →
      bad ∈ getTransactionItems s id →
      findProduct s.products bad.product_id = none →
      cancelTransaction s id =
        .ok ({ s with
                products := restoreStock s.products (getTransactionItems s id)
                transactions := setTxStatus s.transactions id .cancelled },
             { tx with status := .cancelled }) ∧
      refundTransaction s id =
        .ok ({ s with
                products := restoreStock s.products (getTransactionItems s id)
                transactions := setTxStatus s.transactions id .refunded },
             { tx with status := .refunded }) ∧
      stockOf (restoreStock s.products (getTransactionItems s id)) bad.product_id = none ∧
      (∀ pid, stockOf (restoreStock s.products (getTransactionItems s id)) pid =
        (stockOf s.products pid).map (· + totalQty (getTransactionItems s id) pid)) ∧
      txStatusOf { s with
                    products := restoreStock s.products (getTransactionItems s id)
                    transactions := setTxStatus s.transactions id .cancelled } id =
        some .cancelled ∧
      txStatusOf { s with
                    products := restoreStock s.products (getTransactionItems s id)
                    transactions := setTxStatus s.transactions id .refunded } id =
        some .refunded := by
  intro s id tx bad hfind hst hbad hfp
  refine ⟨cancelTransaction_of_completed hfind hst,
          refundTransaction_of_completed hfind hst, ?_, ?_,
          txStatusOf_set s id tx _ .cancelled hfind,
          txStatusOf_set s id tx _ .refunded hfind⟩
  · rw [stockOf_restoreStock]
    have hnone : stockOf s.products bad.product_id = none := by
      unfold stockOf
      rw [hfp]
      rfl
    rw [hnone]
    rfl
  · intro pid
    exact stockOf_restoreStock _ _ _

/-- Witness for C10: a completed transaction with one line item whose product
exists (stock restored) and one referencing the absent product id 99
(skipped, operation still succeeds). -/
theorem C10_missing_product_skipped_witness :
    cancelTransaction c10store 7 =
      .ok ({ c10store with
              products := restoreStock c10store.products (getTransactionItems c10store 7)
              transactions := setTxStatus c10store.transactions 7 .cancelled },
           { c10tx with status := .cancelled }) ∧
    stockOf (restoreStock c10store.products (getTransactionItems c10store 7))
      c10badItem.product_id = none ∧
    stockOf (restoreStock c10store.products (getTransactionItems c10store 7)) 1 =
      (stockOf c10store.products 1).map (· + totalQty (getTransactionItems c10store 7) 1) := by
  have h := C10_missing_product_skipped c10store 7 c10tx c10badItem
    (by decide) (by decide) (by decide) (by decide)
  exact ⟨h.1, h.2.2.1, h.2.2.2.1 1⟩

/-- Claim C7 (corrected): when the first failing line item of the cart is one
whose product id resolves to no row — every earlier item passes both the
existence and the stock check — `createTransaction` fails with the product
not-found error, and any creation failure whatsoever leaves the store
unchanged (the handler performs no write before the validation loop
finishes).  The claim's unconditional "fails with NotFound" is refuted by
`C7_counterexample`: an earlier item can fail the stock check first. -/
theorem C7_notfound_and_atomicity :
    (∀ (s : Store) (now : Nat) (input : CreateTransactionInput)
      (pre : List CartItem) (bad : CartItem) (rest : List CartItem),
      input.items = pre ++ bad :: rest →
      (∀ it ∈ pre, ∃ p, findProduct s.products it.product_id = some p ∧
        ¬ p.stock_quantity < (it.quantity : ℤ)) →
      findProduct s.products bad.product_id = none →
      createTransaction s input now = .error (.productNotFound bad.product_id) ∧
      step s (.create input now) = s) ∧
    (∀ (s : Store) (input : CreateTransactionInput) (now : Nat) (e : TxError),
      createTransaction s input now = .error e → step s (.create input now) = s) := by
  constructor
  · intro s now input pre bad rest hitems hpre hbad
    have hval := validateItems_notfound_prefix pre s.products 0 input.transaction_discount
      bad rest hpre hbad
    have hcreate : createTransaction s input now = .error (.productNotFound bad.product_id) := by
      unfold createTransaction
      rw [hitems, hval]
    exact ⟨hcreate, by simp [step, hcreate]⟩
  · intro s input now e h
    simp [step, h]

/-- Witness for C7: a cart whose only item references the absent product id 2
fails with the not-found error and the store is untouched. -/
theorem C7_notfound_and_atomicity_witness :
    createTransaction c7store c7missingInput 0 = .error (.productNotFound 2) ∧
    step c7store (.create c7missingInput 0) = c7store :=
  C7_notfound_and_atomicity.1 c7store 0 c7missingInput [] ⟨2, 1, 0⟩ [] rfl
    (by intro it h; cases h) (by decide)

/-- Counterexample for C7: the claim says any cart containing a line item with
a missing product fails with NotFound.  With product 1 present but out of
stock, the cart `[item for product 1, item for missing product 2]` fails with
the insufficient-stock error instead (validation stops at the first bad item),
so the error kind is not NotFound for any product id. -/
theorem C7_counterexample :
    createTransaction c7store c7mixedInput 0 = .error (.insufficientStock "Alpha") ∧
    (∀ pid : Nat, TxError.insufficientStock "Alpha" ≠ .productNotFound pid) := by
  exact ⟨by decide, fun pid h => TxError.noConfusion h⟩

/-- Claim C8 (corrected): transaction codes have the form
`TRX-YYYYMMDD-NNN` where the date is the current UTC calendar date and `NNN`
is one plus the count of transactions whose creation timestamp lies in the
CLOSED interval `[start_of_day, start_of_day + 1 day]` (the code uses `lte` on
the upper bound, not the half-open interval the claim states — see
`C8_counterexample`); each successful same-day creation increases that count
by exactly one, so sequence numbers are strictly increasing and codes unique
across a single-threaded day. -/
theorem C8_code_format_and_monotonicity :
    (∀ (s : Store) (now : Nat),
      generateTransactionCode s now =
        "TRX-" ++ dateStr now ++ "-" ++ pad 3 (todayCount s now + 1)) ∧
    (∀ (s : Store) (input : CreateTransactionInput) (now : Nat)
      (s' : Store) (tx : Transaction) (now' : Nat),
      createTransaction s input now = .ok (s', tx) →
      startOfDay now' = startOfDay now →
      todayCount s' now' = todayCount s now' + 1) := by
  constructor
  · intro s now
    rfl
  · intro s input now s' tx now' h hday
    obtain ⟨sub, disc, ps2, -, -, rfl⟩ := createTransaction_ok h
    show ((s.transactions ++ [mkTransaction s input now sub disc]).filter
        (fun t => decide (startOfDay now' ≤ t.created_at) &&
                  decide (t.created_at ≤ startOfDay now' + msPerDay))).length =
      (s.transactions.filter
        (fun t => decide (startOfDay now' ≤ t.created_at) &&
                  decide (t.created_at ≤ startOfDay now' + msPerDay))).length + 1
    rw [List.filter_append, List.length_append]
    have hca : (mkTransaction s input now sub disc).created_at = now := rfl
    have h1 : startOfDay now ≤ now := Nat.div_mul_le_self now msPerDay
    have h2 : now ≤ startOfDay now + msPerDay := by
      unfold startOfDay msPerDay
      omega
    simp [List.filter_cons, hca, hday, h1, h2]

/-- Witness for C8: the count-increment law applied to a concrete same-day
creation. -/
theorem C8_code_format_and_monotonicity_witness :
    createTransaction c8wstore c8winput 0 = .ok (c8wresStore, c8wtx) ∧
    todayCount c8wresStore 0 = todayCount c8wstore 0 + 1 :=
  ⟨by decide,
   C8_code_format_and_monotonicity.2 c8wstore c8winput 0 c8wresStore c8wtx 0 (by decide) rfl⟩

/-- Counterexample for C8: the claim states the sequence counts transactions
in the half-open interval `[start_of_day, start_of_day + 1 day)`.  With one
existing transaction created exactly at the next midnight (timestamp
86400000), the code — which uses an inclusive upper bound — produces sequence
002, while the claimed half-open count yields 001. -/
theorem C8_counterexample :
    generateTransactionCode c8store 0 = "TRX-19700101-002" ∧
    generateTransactionCodeSpec c8store 0 = "TRX-19700101-001" ∧
    generateTransactionCode c8store 0 ≠ generateTransactionCodeSpec c8store 0 := by
  exact ⟨by decide, by decide, by decide⟩

/-- Claim C9 (confirmed): `updateProductStock` clamps — for an existing
product it sets the stock to `max 0 (stock + delta)` and returns the updated
product, for a missing product id it fails with its not-found error — whereas
`createTransaction` never clamps: a first line item whose requested quantity
exceeds the product's stock makes creation fail hard with the
insufficient-stock error. -/
theorem C9_adjust_clamps_create_fails :
    (∀ (s : Store) (pid : Nat) (d : ℤ) (p : Product),
      findProduct s.products pid = some p →
      updateProductStock s pid d =
        .ok ({ s with products := setStockRows s.products pid (max 0 (p.stock_quantity + d)) },
             { p with stock_quantity := max 0 (p.stock_quantity + d) }) ∧
      stockOf (setStockRows s.products pid (max 0 (p.stock_quantity + d))) pid =
        some (max 0 (p.stock_quantity + d))) ∧
    (∀ (s : Store) (pid : Nat) (d : ℤ),
      findProduct s.products pid = none →
      updateProductStock s pid d = .error .productNotFoundSimple) ∧
    (∀ (s : Store) (input : CreateTransactionInput) (now : Nat)
      (item : CartItem) (rest : List CartItem) (p : Product),
      input.items = item :: rest →
      findProduct s.products item.product_id = some p →
      p.stock_quantity < (item.quantity : ℤ) →
      createTransaction s input now = .error (.insufficientStock p.name)) := by
  refine ⟨?_, ?_, ?_⟩
  · intro s pid d p hf
    constructor
    · simp [updateProductStock, hf]
    · rw [stockOf_setStockRows_self]
      have : stockOf s.products pid = some p.stock_quantity := by
        unfold stockOf
        rw [hf]
        rfl
      rw [this]
      rfl
  · intro s pid d hf
    simp [updateProductStock, hf]
  · intro s input now item rest p hitems hf hstock
    have hval : validateItems s.products input.items 0 input.transaction_discount =
        .error (.insufficientStock p.name) := by
      rw [hitems]
      simp only [validateItems, hf]
      rw [if_pos hstock]
    unfold createTransaction
    rw [hval]

/-- Witness for C9: clamping at a concrete negative adjustment (stock 3,
delta −5, resulting stock 0) and the hard failure of a sale requesting
quantity 5 from the same stock of 3. -/
theorem C9_adjust_clamps_create_fails_witness :
    updateProductStock c9store 1 (-5) =
      .ok ({ c9store with products := setStockRows c9store.products 1 (max 0 (3 + -5)) },
           { c9prod with stock_quantity := max 0 (3 + -5) }) ∧
    createTransaction c9store c9input 0 = .error (.insufficientStock "Gadget") :=
  ⟨(C9_adjust_clamps_create_fails.1 c9store 1 (-5) c9prod (by decide)).1,
   C9_adjust_clamps_create_fails.2.2 c9store c9input 0 ⟨1, 5, 0⟩ [] c9prod rfl
     (by decide) (by decide)⟩

/-- Claim C6 (confirmed): across every engine operation (create, cancel,
refund, stock adjustment), an existing transaction's status either stays the
same or moves by exactly `completed → cancelled` under `cancelTransaction` of
that id, or `completed → refunded` under `refundTransaction` of that id.  In
particular `cancelled` and `refunded` are terminal (a non-`completed` status
never changes), so a transaction is reversed at most once, by exactly one of
the two operations. -/
theorem C6_status_transitions :
    ∀ (s : Store) (op : Op) (id : Nat) (t t' : TxStatus),
      txStatusOf s id = some t →
      txStatusOf (step s op) id = some t' →
      t' = t ∨ (t = .completed ∧
        ((op = .cancel id ∧ t' = .cancelled) ∨ (op = .refund id ∧ t' = .refunded))) := by
  intro s op id t t' h1 h2
  cases op with
  | create input now =>
    left
    cases hc : createTransaction s input now with
    | error e =>
      rw [show step s (.create input now) = s from by simp [step, hc], h1] at h2
      injection h2 with h3
      exact h3.symm
    | ok r =>
      obtain ⟨s2, tx⟩ := r
      rw [show step s (.create input now) = s2 from by simp [step, hc]] at h2
      obtain ⟨sub, disc, ps2, -, -, rfl⟩ := createTransaction_ok hc
      unfold txStatusOf getTransactionById at h1 h2
      rw [show ({ s with
            products := ps2
            transactions := s.transactions ++ [mkTransaction s input now sub disc]
            txItems := s.txItems ++ mkItems s.products s.nextTxId input.items
            nextTxId := s.nextTxId + 1 } : Store).transactions =
          s.transactions ++ [mkTransaction s input now sub disc] from rfl,
        List.find?_append] at h2
      cases hfind : s.transactions.find? (fun tt => tt.id == id) with
      | none =>
        rw [hfind] at h1
        simp at h1
      | some tr =>
        rw [hfind] at h1 h2
        simp at h1 h2
        rw [← h1, ← h2]
  | cancel cid =>
    cases hc : cancelTransaction s cid with
    | error e =>
      left
      rw [show step s (.cancel cid) = s from by simp [step, hc], h1] at h2
      injection h2 with h3
      exact h3.symm
    | ok r =>
      obtain ⟨s2, tx2⟩ := r
      rw [show step s (.cancel cid) = s2 from by simp [step, hc]] at h2
      cases hfind : getTransactionById s cid with
      | none =>
        rw [cancelTransaction_of_none hfind] at hc
        cases hc
      | some tx0 =>
        by_cases hst : tx0.status = .completed
        · rw [cancelTransaction_of_completed hfind hst] at hc
          simp only [Except.ok.injEq, Prod.mk.injEq] at hc
          obtain ⟨hs2, -⟩ := hc
          rw [← hs2] at h2
          unfold txStatusOf getTransactionById at h1 h2
          rw [show ({ s with
                products := restoreStock s.products (getTransactionItems s cid)
                transactions := setTxStatus s.transactions cid .cancelled } : Store).transactions =
              setTxStatus s.transactions cid .cancelled from rfl,
            find?_setTxStatus] at h2
          cases hfindid : s.transactions.find? (fun tt => tt.id == id) with
          | none =>
            rw [hfindid] at h1
            simp at h1
          | some tr =>
            rw [hfindid] at h1 h2
            simp at h1 h2
            by_cases hid : tr.id = cid
            · have htrid : tr.id = id := by simpa using List.find?_some hfindid
              have hcid : cid = id := by rw [← hid, htrid]
              have htx0 : tx0 = tr := by
                unfold getTransactionById at hfind
                rw [hcid] at hfind
                rw [hfind] at hfindid
                injection hfindid
              right
              refine ⟨by rw [← h1, ← htx0]; exact hst, Or.inl ⟨by rw [hcid], ?_⟩⟩
              rw [← h2]
              simp [hid]
            · left
              rw [← h2, ← h1]
              simp [hid]
        · rw [cancelTransaction_of_not_completed hfind hst] at hc
          cases hc
  | refund rid =>
    cases hc : refundTransaction s rid with
    | error e =>
      left
      rw [show step s (.refund rid) = s from by simp [step, hc], h1] at h2
      injection h2 with h3
      exact h3.symm
    | ok r =>
      obtain ⟨s2, tx2⟩ := r
      rw [show step s (.refund rid) = s2 from by simp [step, hc]] at h2
      cases hfind : getTransactionById s rid with
      | none =>
        rw [refundTransaction_of_none hfind] at hc
        cases hc
      | some tx0 =>
        by_cases hst : tx0.status = .completed
        · rw [refundTransaction_of_completed hfind hst] at hc
          simp only [Except.ok.injEq, Prod.mk.injEq] at hc
          obtain ⟨hs2, -⟩ := hc
          rw [← hs2] at h2
          unfold txStatusOf getTransactionById at h1 h2
          rw [show ({ s with
                products := restoreStock s.products (getTransactionItems s rid)
                transactions := setTxStatus s.transactions rid .refunded } : Store).transactions =
              setTxStatus s.transactions rid .refunded from rfl,
            find?_setTxStatus] at h2
          cases hfindid : s.transactions.find? (fun tt => tt.id == id) with
          | none =>
            rw [hfindid] at h1
            simp at h1
          | some tr =>
            rw [hfindid] at h1 h2
            simp at h1 h2
            by_cases hid : tr.id = rid
            · have htrid : tr.id = id := by simpa using List.find?_some hfindid
              have hcid : rid = id := by rw [← hid, htrid]
              have htx0 : tx0 = tr := by
                unfold getTransactionById at hfind
                rw [hcid] at hfind
                rw [hfind] at hfindid
                injection hfindid
              right
              refine ⟨by rw [← h1, ← htx0]; exact hst, Or.inr ⟨by rw [hcid], ?_⟩⟩
              rw [← h2]
              simp [hid]
            · left
              rw [← h2, ← h1]
              simp [hid]
        · rw [refundTransaction_of_not_completed hfind hst] at hc
          cases hc
  | adjust pid d =>
    left
    cases hu : updateProductStock s pid d with
    | error e =>
      rw [show step s (.adjust pid d) = s from by simp [step, hu], h1] at h2
      injection h2 with h3
      exact h3.symm
    | ok r =>
      obtain ⟨s2, p2⟩ := r
      rw [show step s (.adjust pid d) = s2 from by simp [step, hu]] at h2
      cases hfp : findProduct s.products pid with
      | none =>
        rw [show updateProductStock s pid d = .error .productNotFoundSimple from by
          simp [updateProductStock, hfp]] at hu
        cases hu
      | some p =>
        rw [show updateProductStock s pid d =
            .ok ({ s with products := setStockRows s.products pid (max 0 (p.stock_quantity + d)) },
                 { p with stock_quantity := max 0 (p.stock_quantity + d) }) from by
          simp [updateProductStock, hfp]] at hu
        simp only [Except.ok.injEq, Prod.mk.injEq] at hu
        obtain ⟨hs2, -⟩ := hu
        rw [← hs2] at h2
        rw [show txStatusOf { s with
              products := setStockRows s.products pid (max 0 (p.stock_quantity + d)) } id =
            txStatusOf s id from rfl, h1] at h2
        injection h2 with h3
        exact h3.symm

/-- Witness for C6: the `completed → cancelled` transition performed by
`cancelTransaction` on a concrete store, as an instance of the transition
relation. -/
theorem C6_status_transitions_witness :
    txStatusOf c6store 3 = some .completed ∧
    txStatusOf (step c6store (.cancel 3)) 3 = some .cancelled ∧
    (TxStatus.cancelled = TxStatus.completed ∨ (TxStatus.completed = .completed ∧
      ((Op.cancel 3 = Op.cancel 3 ∧ TxStatus.cancelled = .cancelled) ∨
       (Op.cancel 3 = Op.refund 3 ∧ TxStatus.cancelled = .refunded)))) :=
  ⟨by decide, by decide,
   C6_status_transitions c6store (.cancel 3) 3 .completed .cancelled (by decide) (by decide)⟩

end POS
